import Mathlib

/-!
A verification development for the limdberator storage/dedup core
(`limdberator/database.py`).  The SQLite-backed state is embedded shallowly:
each table is a Lean list, SQL values are an inductive `Value` type, and the
write path (`insert_new_scrape`, `insert_new_change`, `insert_with_change`,
`store_scraped_title`, `store_scraped_person`) is translated statement by
statement.  The transactional gate (`SharedConnection`) is modelled by
`sharedConnection_run`, with explicit fault switches for a failing `BEGIN`
and a failing `COMMIT`.
-/

/-- An SQLite value stored in a fact-table column: NULL, an integer, or text.
(The Python code passes `None`, `int`, or `str` column values.) -/
inductive Value
  | null
  | int (n : Int)
  | str (s : String)
deriving DecidableEq, Repr

/-- Three-valued SQL equality `stored = queried` collapsed to "the comparison
is TRUE": a comparison involving NULL is never TRUE, and values of different
types are unequal. -/
def Value.sqlEq : Value → Value → Bool
  | Value.int m, Value.int n => m == n
  | Value.str s, Value.str t => s == t
  | _, _ => false

/-- A value is not NULL. -/
def Value.isNotNull : Value → Bool
  | Value.null => false
  | _ => true

/-- A column mapping, in iteration order, as passed to `insert_with_change`
(the row's columns excluding `change_id`). -/
abbrev Row := List (String × Value)

/-- A stored fact-table row: its subject/value columns plus the `change_id`. -/
structure FactRow where
  cols : Row
  change_id : Nat
deriving DecidableEq, Repr

/-- The five fact tables created by `init_database`. -/
inductive TableName
  | title_info
  | title_tags
  | people_info
  | credits
  | credit_tags
deriving DecidableEq, Repr

/-- The database state: the `scrapes` table, the abstract `_changes` identity
table (kept as `change_ids`), the `changes` link table (ScrapeChangeLink rows
`(change_id, scrape_id)`), and the five fact tables. -/
structure DB where
  scrapes : List (Nat × Int)
  change_ids : List Nat
  changes : List (Nat × Nat)
  title_info : List FactRow
  title_tags : List FactRow
  people_info : List FactRow
  credits : List FactRow
  credit_tags : List FactRow
deriving DecidableEq, Repr

/-- The state produced by `init_database` on a fresh store: all tables empty. -/
def init_database : DB :=
  ⟨[], [], [], [], [], [], [], []⟩

/-- Read one of the five fact tables. -/
def DB.getTable (db : DB) : TableName → List FactRow
  | TableName.title_info => db.title_info
  | TableName.title_tags => db.title_tags
  | TableName.people_info => db.people_info
  | TableName.credits => db.credits
  | TableName.credit_tags => db.credit_tags

/-- Replace one of the five fact tables. -/
def DB.setTable (db : DB) : TableName → List FactRow → DB
  | TableName.title_info, t => { db with title_info := t }
  | TableName.title_tags, t => { db with title_tags := t }
  | TableName.people_info, t => { db with people_info := t }
  | TableName.credits, t => { db with credits := t }
  | TableName.credit_tags, t => { db with credit_tags := t }

/-- SQLite's rowid assignment for `INTEGER PRIMARY KEY` on inserting NULL:
one greater than the largest id in use (1 on an empty table).  This is the
`cursor.lastrowid` the Python code reads back. -/
def nextId (ids : List Nat) : Nat :=
  ids.foldr max 0 + 1

/-- `insert_new_scrape`: insert a row into `scrapes` and return its id. -/
def insert_new_scrape (db : DB) (timestamp : Int) : DB × Nat :=
  let id := nextId (db.scrapes.map Prod.fst)
  ({ db with scrapes := db.scrapes ++ [(id, timestamp)] }, id)

/-- `insert_new_change`: insert a fresh id into `_changes`, then a
ScrapeChangeLink row into `changes`, and return the new change id. -/
def insert_new_change (db : DB) (scrape_id : Nat) : DB × Nat :=
  let change_id := nextId db.change_ids
  ({ db with
      change_ids := db.change_ids ++ [change_id]
      changes := db.changes ++ [(change_id, scrape_id)] },
   change_id)

/-- Whether a stored row satisfies the WHERE clause `c1=? AND ... AND cn=?`
built by `insert_with_change` from the query mapping, under SQL three-valued
logic (`Value.sqlEq`). -/
def rowMatches (q : Row) (r : FactRow) : Bool :=
  q.all fun cv =>
    match r.cols.lookup cv.1 with
    | some v => v.sqlEq cv.2
    | none => false

/-- `insert_with_change`: look up an equal row (`SELECT change_id ... LIMIT 1`);
if one exists, only link its change id to the current scrape; otherwise mint a
new change (which also links it) and insert the row with the new change id.
The Python code asserts the column mapping is non-empty. -/
def insert_with_change (db : DB) (scrape_id : Nat) (table : TableName)
    (row : Row) : DB :=
  match (db.getTable table).find? (rowMatches row) with
  | some r =>
      { db with changes := db.changes ++ [(r.change_id, scrape_id)] }
  | none =>
      let p := insert_new_change db scrape_id
      p.1.setTable table (p.1.getTable table ++ [⟨row, p.2⟩])

/-- The change id `insert_with_change` associates with the row: the matching
row's existing change id, or the freshly minted one. -/
def dedup_change_id (db : DB) (table : TableName) (row : Row) : Nat :=
  match (db.getTable table).find? (rowMatches row) with
  | some r => r.change_id
  | none => nextId db.change_ids

/-- A scraped title document (`ScrapedTitle` in `types.py`): required `id` and
`timestamp`, everything else optional. -/
structure ScrapedTitle where
  id : String
  timestamp : Int
  title : Option String := none
  original_title : Option String := none
  rating : Option String := none
  rating_count : Option Int := none
  year : Option String := none
  directors : Option (List (String × String)) := none
  writers : Option (List (String × String)) := none
  cast : Option (List (String × String)) := none
  duration : Option Int := none
  languages : Option (List String) := none
deriving DecidableEq, Repr

/-- One candidate `title_info` row, in the dict order used by the source. -/
def titleInfoRow (title_id key : String) (v : Value) : Row :=
  [("title_id", Value.str title_id), ("key", Value.str key), ("value", v)]

/-- The (key, value) pairs `gen_title_info_data` yields, in source order: the
present scalar keys in the source's tuple order, then one `language` pair per
listed language. -/
def gen_title_info_pairs (scrape : ScrapedTitle) : List (String × Value) :=
  (scrape.title.map fun v => (("title"), Value.str v)).toList ++
  (scrape.original_title.map fun v => (("original_title"), Value.str v)).toList ++
  (scrape.rating.map fun v => (("rating"), Value.str v)).toList ++
  (scrape.rating_count.map fun v => (("rating_count"), Value.int v)).toList ++
  (scrape.year.map fun v => (("year"), Value.str v)).toList ++
  (scrape.duration.map fun v => (("duration"), Value.int v)).toList ++
  (scrape.languages.getD []).map fun lang => (("language"), Value.str lang)

/-- `gen_title_info_data`: one `title_info` row per yielded pair, each of the
form `{title_id, key, value}`. -/
def gen_title_info_data (scrape : ScrapedTitle) : List Row :=
  (gen_title_info_pairs scrape).map fun kv => titleInfoRow scrape.id kv.1 kv.2

/-- The ordered candidate fact rows emitted by `store_scraped_title` after the
Scrape row: the `title_info` rows, then per cast pair a `people_info` row and a
`credits` row. -/
def title_facts (scrape : ScrapedTitle) : List (TableName × Row) :=
  (gen_title_info_data scrape).map (fun r => (TableName.title_info, r)) ++
  (scrape.cast.getD []).flatMap fun pc =>
    [(TableName.people_info,
      [("person_id", Value.str pc.1), ("key", Value.str ("name")),
       ("value", Value.str pc.2)]),
     (TableName.credits,
      [("title_id", Value.str scrape.id), ("credit_type", Value.str ("actor")),
       ("person_id", Value.str pc.1)])]

/-- Run a sequence of candidate fact rows through `insert_with_change`. -/
def apply_facts (db : DB) (scrape_id : Nat) (facts : List (TableName × Row)) : DB :=
  facts.foldl (fun d tr => insert_with_change d scrape_id tr.1 tr.2) db

/-- The body of `store_scraped_title` (the statements inside the
`async with` scope).  It has no failure point of its own. -/
def store_scraped_title_body (db : DB) (scrape : ScrapedTitle) : DB :=
  let p := insert_new_scrape db scrape.timestamp
  apply_facts p.1 p.2 (title_facts scrape)

/-- The embedded per-credit title metadata (`FilmCreditTitleInfo` in
`types.py`): all keys optional. -/
structure FilmCreditTitleInfo where
  title : Option String := none
  year : Option String := none
  tags : Option (List String) := none
deriving DecidableEq, Repr

/-- One filmography credit (`FilmCredit` in `types.py`): all keys required. -/
structure FilmCredit where
  id : String
  credit_type : List String
  tags : List String
  title_info : FilmCreditTitleInfo
deriving DecidableEq, Repr

/-- A scraped person document (`ScrapedPerson` in `types.py`).  The
filmography mapping is kept as an association list in iteration order. -/
structure ScrapedPerson where
  id : String
  timestamp : Int
  name : Option String := none
  birthday : Option String := none
  filmography : Option (List (String × FilmCredit)) := none
deriving DecidableEq, Repr

/-- `credit_types or [None]`: an empty credit-type list degenerates to a
single NULL placeholder. -/
def credit_types_or_null : List String → List (Option String)
  | [] => [none]
  | l => l.map some

/-- A Python optional string as an SQLite value. -/
def optStr : Option String → Value
  | none => Value.null
  | some s => Value.str s

/-- The minimal title document `store_scraped_person` builds from a credit's
embedded title info: the title id, dummy timestamp `-1`, and `title`/`year`
when present. -/
def credit_title_doc (title_id : String) (credit : FilmCredit) : ScrapedTitle :=
  { id := title_id, timestamp := -1,
    title := credit.title_info.title, year := credit.title_info.year }

/-- The candidate fact rows one filmography entry emits before the
`credit["title_info"]["tags"]` access: the `credits` rows, the `credit_tags`
rows, and the embedded `title_info` rows, in source order. -/
def credit_facts_head (person_id title_id : String) (credit : FilmCredit) :
    List (TableName × Row) :=
  (credit_types_or_null credit.credit_type).map (fun ct =>
    (TableName.credits,
     [("title_id", Value.str title_id), ("credit_type", optStr ct),
      ("person_id", Value.str person_id)])) ++
  credit.tags.map (fun tag =>
    (TableName.credit_tags,
     [("title_id", Value.str title_id), ("person_id", Value.str person_id),
      ("tag", Value.str tag)])) ++
  (gen_title_info_data (credit_title_doc title_id credit)).map
    (fun r => (TableName.title_info, r))

/-- The `title_tags` rows of one filmography entry. -/
def credit_title_tag_facts (title_id : String) (tags : List String) :
    List (TableName × Row) :=
  tags.map fun tag =>
    (TableName.title_tags,
     [("title_id", Value.str title_id), ("tag", Value.str tag)])

/-- The filmography loop of `store_scraped_person`.  `FilmCreditTitleInfo`
declares `tags` optional, but the source reads
`credit["title_info"]["tags"]` unconditionally, so an absent `tags` key
raises a KeyError after the entry's earlier rows were already inserted. -/
def store_filmography (db : DB) (scrape_id : Nat) (person_id : String) :
    List (String × FilmCredit) → Except String DB
  | [] => Except.ok db
  | (title_id, credit) :: rest =>
    let db1 := apply_facts db scrape_id (credit_facts_head person_id title_id credit)
    match credit.title_info.tags with
    | none => Except.error ("KeyError: tags")
    | some tags =>
        store_filmography (apply_facts db1 scrape_id
          (credit_title_tag_facts title_id tags)) scrape_id person_id rest

/-- The `people_info` rows of a person document: `name` and `birthday` when
present, in that order. -/
def person_info_facts (scrape : ScrapedPerson) : List (TableName × Row) :=
  (scrape.name.map fun v =>
    (TableName.people_info,
     [("person_id", Value.str scrape.id), ("key", Value.str ("name")),
      ("value", Value.str v)])).toList ++
  (scrape.birthday.map fun v =>
    (TableName.people_info,
     [("person_id", Value.str scrape.id), ("key", Value.str ("birthday")),
      ("value", Value.str v)])).toList

/-- The body of `store_scraped_person` (the statements inside the
`async with` scope); it can raise. -/
def store_scraped_person_body (db : DB) (scrape : ScrapedPerson) :
    Except String DB :=
  let p := insert_new_scrape db scrape.timestamp
  let db2 := apply_facts p.1 p.2 (person_info_facts scrape)
  store_filmography db2 p.2 scrape.id (scrape.filmography.getD [])

/-- The gate's externally visible state: the committed database and whether
the mutual-exclusion lock is held. -/
structure GateState where
  db : DB
  locked : Bool
deriving DecidableEq, Repr

/-- One scoped use of `SharedConnection` (`async with shared_conn`), as the
source's `__aenter__`/`__aexit__` pair behaves: acquire the lock; `BEGIN` (if
it fails, release the lock and re-raise); run the body; on a body error,
`ROLLBACK` and let the original error propagate; otherwise `COMMIT`, and if
the `COMMIT` itself fails, `ROLLBACK` and swallow that exception; the `finally`
block releases the lock on every path.  Returns the exception the caller
sees (if any) and the final gate state. -/
def sharedConnection_run (g : GateState) (beginFails commitFails : Bool)
    (body : DB → Except String DB) : Option String × GateState :=
  if beginFails then
    (some ("BEGIN failed"), { db := g.db, locked := false })
  else
    match body g.db with
    | Except.error e => (some e, { db := g.db, locked := false })
    | Except.ok db' =>
        if commitFails then
          (none, { db := g.db, locked := false })
        else
          (none, { db := db', locked := false })

/-- `store_scraped_title`: the whole ingestion call through the gate (with
neither injected fault). -/
def store_scraped_title (db : DB) (scrape : ScrapedTitle) : DB :=
  (sharedConnection_run ⟨db, false⟩ false false
    (fun d => Except.ok (store_scraped_title_body d scrape))).2.db

/-- `store_scraped_person`: the whole ingestion call through the gate (with
neither injected fault): the error surfaced to the caller, if any, and the
committed (or rolled-back) state. -/
def store_scraped_person (db : DB) (scrape : ScrapedPerson) :
    Option String × DB :=
  let r := sharedConnection_run ⟨db, false⟩ false false
    (fun d => store_scraped_person_body d scrape)
  (r.1, r.2.db)

/-- Database states reachable from a fresh store by ingestion calls (a failed
person ingestion is rolled back, so its resulting state is covered too). -/
inductive Reachable : DB → Prop
  | init : Reachable init_database
  | title (db : DB) (s : ScrapedTitle) :
      Reachable db → Reachable (store_scraped_title db s)
  | person (db : DB) (s : ScrapedPerson) :
      Reachable db → Reachable (store_scraped_person db s).2

/-- The column names of a mapping are pairwise distinct (true of every mapping
the extractors build). -/
def keysNodup (q : Row) : Prop :=
  (q.map Prod.fst).Nodup

/-- Every value of the mapping is non-NULL. -/
def rowNonNull (q : Row) : Bool :=
  q.all fun cv => cv.2.isNotNull

/-- The change ids of all fact rows, across the five fact tables combined. -/
def allFactIds (db : DB) : List Nat :=
  (db.title_info ++ db.title_tags ++ db.people_info ++ db.credits ++
    db.credit_tags).map FactRow.change_id

/-- SQLite-`UNIQUE` uniqueness of a fact table: no two rows agree on all
columns with every value non-NULL (NULLs are distinct for `UNIQUE`). -/
def tableUniq (t : List FactRow) : Prop :=
  t.Pairwise fun r1 r2 => ¬(r1.cols = r2.cols ∧ rowNonNull r1.cols = true)

/-- Uniqueness of all five fact tables. -/
def factUniq (db : DB) : Prop :=
  ∀ t : TableName, tableUniq (db.getTable t)

/-- The write-path invariant: fact-table uniqueness, plus the Change space
is in one-to-one correspondence with the fact rows (`_changes` ids are
pairwise distinct and occur in fact rows with the same multiplicity). -/
def StoreInv (db : DB) : Prop :=
  factUniq db ∧ db.change_ids.Nodup ∧
    ∀ c : Nat, (allFactIds db).count c = db.change_ids.count c

/-- All candidate rows of a fact list have pairwise-distinct column names. -/
def factsWf (facts : List (TableName × Row)) : Prop :=
  ∀ tr ∈ facts, keysNodup tr.2

/-- A title document carrying only a `title` value (plus the required id and
timestamp). -/
def titleOnlyDoc (tid v : String) (ts : Int) : ScrapedTitle :=
  { id := tid, timestamp := ts, title := some v }

/-- A title document with a title and one cast member. -/
def faultyTitleDoc : ScrapedTitle :=
  { id := "tt1", timestamp := 1, title := some ("Foo"),
    cast := some [(("nm1"), ("Alice"))] }

/-- A title-ingestion body forced to fail after the first `n` candidate facts
were inserted (the "forced failure after the k-th fact" of the spec's
atomicity test); the partial writes are discarded by the gate's rollback. -/
def title_body_faulty (scrape : ScrapedTitle) (n : Nat) (db : DB) :
    Except String DB :=
  let p := insert_new_scrape db scrape.timestamp
  let _db2 := apply_facts p.1 p.2 ((title_facts scrape).take n)
  Except.error ("INSERT failed")

/-- A credit whose `credit_type` list is empty (hence stored with a NULL
`credit_type`) and whose embedded title info carries an empty `tags` list. -/
def nullCredit : FilmCredit :=
  { id := "tt1", credit_type := [], tags := [],
    title_info := { tags := some [] } }

/-- A person document carrying one untyped credit for title `tt1`. -/
def personNullCredit (ts : Int) : ScrapedPerson :=
  { id := "nm1", timestamp := ts,
    filmography := some [(("tt1"), nullCredit)] }

/-- The `credits` row each ingestion of `personNullCredit` emits: a NULL
`credit_type`. -/
def creditsNullRow : Row :=
  [("title_id", Value.str ("tt1")), ("credit_type", Value.null),
   ("person_id", Value.str ("nm1"))]

/-- A state holding exactly one `credits` row, whose `credit_type` is NULL
(the state one `personNullCredit` ingestion produces). -/
def dbNullRow : DB :=
  ⟨[(1, 1)], [1], [(1, 1)], [], [], [], [⟨creditsNullRow, 1⟩], []⟩

/-- The `title_info` row `titleOnlyDoc "tt1" "Foo"` produces. -/
def titleRowFoo : Row :=
  titleInfoRow ("tt1") ("title") (Value.str ("Foo"))

/-- The state after ingesting `titleOnlyDoc "tt1" "Foo" 1` into a fresh
store. -/
def dedupWitnessDB : DB :=
  store_scraped_title init_database (titleOnlyDoc ("tt1") ("Foo") 1)

/-- A credit whose embedded title info lacks the `tags` key. -/
def badCredit : FilmCredit :=
  { id := "tt2", credit_type := [("actor")], tags := [],
    title_info := { tags := none } }

/-- A person document whose single filmography credit lacks the embedded
`tags` key. -/
def personBadCredit : ScrapedPerson :=
  { id := "nm2", timestamp := 3, filmography := some [(("tt2"), badCredit)] }

theorem sqlEq_null_right (v : Value) : v.sqlEq Value.null = false := by
  cases v <;> rfl

theorem sqlEq_self (v : Value) (h : v.isNotNull = true) : v.sqlEq v = true := by
  cases v <;> simp_all [Value.sqlEq, Value.isNotNull]

theorem eq_of_sqlEq (v w : Value) (h : v.sqlEq w = true) : v = w := by
  cases v <;> cases w <;> simp_all [Value.sqlEq]

theorem rowMatches_of_null_mem (q : Row) (r : FactRow)
    (h : Value.null ∈ q.map Prod.snd) : rowMatches q r = false := by
  rw [Bool.eq_false_iff]
  intro hall
  rw [rowMatches, List.all_eq_true] at hall
  obtain ⟨cv, hcv, hnull⟩ := List.mem_map.mp h
  have := hall cv hcv
  rw [hnull] at this
  cases hl : (r.cols.lookup cv.1) with
  | none => rw [hl] at this; exact Bool.noConfusion this
  | some v =>
      rw [hl] at this
      simp [sqlEq_null_right] at this

theorem lookup_eq_of_keysNodup (q : Row) (a : String) (v : Value)
    (hk : keysNodup q) (hm : (a, v) ∈ q) : q.lookup a = some v := by
  induction q with
  | nil => cases hm
  | cons hd tl ih =>
      rw [keysNodup, List.map_cons, List.nodup_cons] at hk
      cases hm with
      | head => simp [List.lookup]
      | tail _ hm' =>
          have hne : a ≠ hd.1 := by
            intro heq
            exact hk.1 (heq ▸ List.mem_map.mpr ⟨(a, v), hm', rfl⟩)
          have hbeq : (a == hd.1) = false := beq_eq_false_iff_ne.mpr hne
          simp only [List.lookup, hbeq]
          exact ih hk.2 hm'

theorem rowNonNull_mem (q : Row) (cv : String × Value) (hnn : rowNonNull q = true)
    (hm : cv ∈ q) : cv.2.isNotNull = true := by
  rw [rowNonNull, List.all_eq_true] at hnn
  exact hnn cv hm

theorem rowMatches_self (q : Row) (r : FactRow) (hk : keysNodup q)
    (hnn : rowNonNull q = true) (hc : r.cols = q) : rowMatches q r = true := by
  rw [rowMatches, List.all_eq_true]
  intro cv hcv
  rw [hc, lookup_eq_of_keysNodup q cv.1 cv.2 hk hcv]
  exact sqlEq_self cv.2 (rowNonNull_mem q cv hnn hcv)

theorem cols_eq_of_rowMatches (l q : Row)
    (hkeys : l.map Prod.fst = q.map Prod.fst) (hk : keysNodup q)
    (hm : ∀ cv ∈ q, (match l.lookup cv.1 with
      | some v => v.sqlEq cv.2
      | none => false) = true) : l = q := by
  induction q generalizing l with
  | nil => cases l with
    | nil => rfl
    | cons hd tl => exact absurd hkeys (by simp)
  | cons hd tl ih =>
      cases l with
      | nil => exact absurd hkeys (by simp)
      | cons hd' tl' =>
          simp only [List.map_cons, List.cons.injEq] at hkeys
          rw [keysNodup, List.map_cons, List.nodup_cons] at hk
          have hhd := hm hd (List.mem_cons_self hd tl)
          rw [List.lookup_cons] at hhd
          rw [hkeys.1] at hhd
          simp only [beq_self_eq_true, ite_true] at hhd
          have hv : hd'.2 = hd.2 := eq_of_sqlEq _ _ hhd
          have htl : tl' = tl := by
            refine ih tl' hkeys.2 hk.2 ?_
            intro cv hcv
            have := hm cv (List.mem_cons_of_mem hd hcv)
            rw [List.lookup_cons] at this
            have hne : cv.1 ≠ hd'.1 := by
              rw [hkeys.1]
              intro heq
              exact hk.1 (heq ▸ List.mem_map.mpr ⟨cv, hcv, rfl⟩)
            have hbeq : (cv.1 == hd'.1) = false := beq_eq_false_iff_ne.mpr hne
            simpa only [hbeq] using this
          have hfst : hd' = hd := Prod.ext hkeys.1 hv
          rw [hfst, htl]

theorem le_foldr_max (l : List Nat) (x : Nat) (h : x ∈ l) :
    x ≤ l.foldr max 0 := by
  induction l with
  | nil => cases h
  | cons hd tl ih =>
      cases h with
      | head => exact le_max_left _ _
      | tail _ h' => exact le_trans (ih h') (le_max_right _ _)

theorem nextId_not_mem (l : List Nat) : nextId l ∉ l := by
  intro h
  have := le_foldr_max l _ h
  rw [nextId] at this
  omega

theorem getTable_add_link (db : DB) (l : List (Nat × Nat)) (t : TableName) :
    DB.getTable { db with changes := l } t = db.getTable t := by
  cases t <;> rfl

theorem getTable_bump (db : DB) (l1 : List Nat) (l2 : List (Nat × Nat))
    (t : TableName) :
    DB.getTable { db with change_ids := l1, changes := l2 } t = db.getTable t := by
  cases t <;> rfl

theorem getTable_setTable (db : DB) (t s : TableName) (l : List FactRow) :
    (db.setTable t l).getTable s = if s = t then l else db.getTable s := by
  cases t <;> cases s <;> simp [DB.setTable, DB.getTable]

theorem change_ids_setTable (db : DB) (t : TableName) (l : List FactRow) :
    (db.setTable t l).change_ids = db.change_ids := by
  cases t <;> rfl

theorem changes_setTable (db : DB) (t : TableName) (l : List FactRow) :
    (db.setTable t l).changes = db.changes := by
  cases t <;> rfl

theorem scrapes_setTable (db : DB) (t : TableName) (l : List FactRow) :
    (db.setTable t l).scrapes = db.scrapes := by
  cases t <;> rfl

theorem insert_with_change_match (db : DB) (sid : Nat) (t : TableName)
    (row : Row) (r : FactRow)
    (hfind : (db.getTable t).find? (rowMatches row) = some r) :
    insert_with_change db sid t row =
      { db with changes := db.changes ++ [(r.change_id, sid)] } := by
  unfold insert_with_change
  rw [hfind]

theorem insert_with_change_none (db : DB) (sid : Nat) (t : TableName)
    (row : Row)
    (hfind : (db.getTable t).find? (rowMatches row) = none) :
    insert_with_change db sid t row =
      DB.setTable
        { db with change_ids := db.change_ids ++ [nextId db.change_ids],
                  changes := db.changes ++ [(nextId db.change_ids, sid)] }
        t (db.getTable t ++ [⟨row, nextId db.change_ids⟩]) := by
  unfold insert_with_change
  rw [hfind]
  cases t <;> rfl

theorem count_allFactIds_append (db : DB) (t : TableName) (r : FactRow)
    (c : Nat) :
    (allFactIds (db.setTable t (db.getTable t ++ [r]))).count c =
      (allFactIds db).count c + List.count c [r.change_id] := by
  cases t <;>
    simp only [allFactIds, DB.setTable, DB.getTable, List.map_append,
      List.map_cons, List.map_nil, List.count_append] <;> omega

theorem storeInv_insert_with_change (db : DB) (sid : Nat) (t : TableName)
    (row : Row) (hk : keysNodup row) (h : StoreInv db) :
    StoreInv (insert_with_change db sid t row) := by
  obtain ⟨hu, hnd, hcnt⟩ := h
  cases hfind : (db.getTable t).find? (rowMatches row) with
  | some r =>
      rw [insert_with_change_match db sid t row r hfind]
      refine ⟨?_, hnd, hcnt⟩
      intro s
      rw [getTable_add_link]
      exact hu s
  | none =>
      rw [insert_with_change_none db sid t row hfind]
      have hfresh : nextId db.change_ids ∉ db.change_ids := nextId_not_mem _
      refine ⟨?_, ?_, ?_⟩
      · intro s
        rw [getTable_setTable]
        by_cases hs : s = t
        · rw [if_pos hs]
          rw [tableUniq, List.pairwise_append]
          refine ⟨hu t, List.pairwise_singleton _ _, ?_⟩
          intro r1 h1 r2 h2
          rw [List.mem_singleton] at h2
          intro hcontra
          obtain ⟨hcols, hnn⟩ := hcontra
          have hr1 : r1.cols = row := by rw [hcols, h2]
          rw [hr1] at hnn
          have hmatch : rowMatches row r1 = true :=
            rowMatches_self row r1 hk hnn hr1
          have hno := List.find?_eq_none.mp hfind r1 h1
          rw [hmatch] at hno
          exact hno rfl
        · rw [if_neg hs, getTable_bump]
          exact hu s
      · rw [change_ids_setTable]
        rw [List.nodup_append]
        refine ⟨hnd, List.nodup_singleton _, ?_⟩
        intro a ha hb
        rw [List.mem_singleton] at hb
        exact hfresh (hb ▸ ha)
      · intro c
        rw [change_ids_setTable]
        have hstep := count_allFactIds_append
          { db with change_ids := db.change_ids ++ [nextId db.change_ids],
                    changes := db.changes ++ [(nextId db.change_ids, sid)] }
          t ⟨row, nextId db.change_ids⟩ c
        rw [getTable_bump] at hstep
        have hbase :
            allFactIds { db with
              change_ids := db.change_ids ++ [nextId db.change_ids],
              changes := db.changes ++ [(nextId db.change_ids, sid)] } =
              allFactIds db := rfl
        rw [hbase] at hstep
        rw [hstep, List.count_append, hcnt c]

theorem keysNodup_titleInfoRow (a b : String) (v : Value) :
    keysNodup (titleInfoRow a b v) := by
  show (["title_id", "key", "value"] : List String).Nodup
  decide

theorem title_facts_wf (s : ScrapedTitle) : factsWf (title_facts s) := by
  intro tr htr
  rw [title_facts, List.mem_append] at htr
  cases htr with
  | inl h =>
      obtain ⟨r, hr, rfl⟩ := List.mem_map.mp h
      obtain ⟨kv, _, rfl⟩ := List.mem_map.mp hr
      exact keysNodup_titleInfoRow _ _ _
  | inr h =>
      obtain ⟨pc, _, hm⟩ := List.mem_flatMap.mp h
      rcases List.mem_cons.mp hm with h1 | h1
      · rw [h1]
        show (["person_id", "key", "value"] : List String).Nodup
        decide
      · rw [List.mem_singleton] at h1
        rw [h1]
        show (["title_id", "credit_type", "person_id"] : List String).Nodup
        decide

theorem person_info_facts_wf (s : ScrapedPerson) :
    factsWf (person_info_facts s) := by
  intro tr htr
  rw [person_info_facts, List.mem_append] at htr
  cases htr with
  | inl h =>
      rw [Option.mem_toList, Option.mem_def] at h
      obtain ⟨v, _, heq⟩ := Option.map_eq_some'.mp h
      rw [← heq]
      show (["person_id", "key", "value"] : List String).Nodup
      decide
  | inr h =>
      rw [Option.mem_toList, Option.mem_def] at h
      obtain ⟨v, _, heq⟩ := Option.map_eq_some'.mp h
      rw [← heq]
      show (["person_id", "key", "value"] : List String).Nodup
      decide

theorem credit_facts_head_wf (pid tid : String) (credit : FilmCredit) :
    factsWf (credit_facts_head pid tid credit) := by
  intro tr htr
  rw [credit_facts_head, List.append_assoc, List.mem_append] at htr
  cases htr with
  | inl h =>
      obtain ⟨ct, _, rfl⟩ := List.mem_map.mp h
      show (["title_id", "credit_type", "person_id"] : List String).Nodup
      decide
  | inr h =>
      rw [List.mem_append] at h
      cases h with
      | inl h1 =>
          obtain ⟨tag, _, rfl⟩ := List.mem_map.mp h1
          show (["title_id", "person_id", "tag"] : List String).Nodup
          decide
      | inr h1 =>
          obtain ⟨r, hr, rfl⟩ := List.mem_map.mp h1
          obtain ⟨kv, _, rfl⟩ := List.mem_map.mp hr
          exact keysNodup_titleInfoRow _ _ _

theorem credit_title_tag_facts_wf (tid : String) (tags : List String) :
    factsWf (credit_title_tag_facts tid tags) := by
  intro tr htr
  obtain ⟨tag, _, rfl⟩ := List.mem_map.mp htr
  show (["title_id", "tag"] : List String).Nodup
  decide

theorem storeInv_apply_facts (sid : Nat) (facts : List (TableName × Row)) :
    ∀ db : DB, factsWf facts → StoreInv db →
      StoreInv (apply_facts db sid facts) := by
  induction facts with
  | nil => intro db _ h; exact h
  | cons hd tl ih =>
      intro db hw h
      simp only [apply_facts, List.foldl_cons] at *
      exact ih (insert_with_change db sid hd.1 hd.2)
        (fun tr htr => hw tr (List.mem_cons_of_mem hd htr))
        (storeInv_insert_with_change db sid hd.1 hd.2
          (hw hd (List.mem_cons_self hd tl)) h)

theorem storeInv_insert_new_scrape (db : DB) (ts : Int) (h : StoreInv db) :
    StoreInv (insert_new_scrape db ts).1 := by
  obtain ⟨hu, hnd, hcnt⟩ := h
  refine ⟨fun s => ?_, hnd, hcnt⟩
  cases s with
  | title_info => exact hu TableName.title_info
  | title_tags => exact hu TableName.title_tags
  | people_info => exact hu TableName.people_info
  | credits => exact hu TableName.credits
  | credit_tags => exact hu TableName.credit_tags

theorem storeInv_store_filmography (sid : Nat) (pid : String)
    (l : List (String × FilmCredit)) :
    ∀ db db' : DB, StoreInv db →
      store_filmography db sid pid l = Except.ok db' → StoreInv db' := by
  induction l with
  | nil =>
      intro db db' h heq
      rw [store_filmography] at heq
      cases heq
      exact h
  | cons hd tl ih =>
      intro db db' h heq
      obtain ⟨tid, credit⟩ := hd
      rw [store_filmography] at heq
      cases htags : credit.title_info.tags with
      | none => rw [htags] at heq; cases heq
      | some tags =>
          rw [htags] at heq
          refine ih _ db' ?_ heq
          exact storeInv_apply_facts sid _ _
            (credit_title_tag_facts_wf tid tags)
            (storeInv_apply_facts sid _ _
              (credit_facts_head_wf pid tid credit) h)

theorem storeInv_store_scraped_title (db : DB) (s : ScrapedTitle)
    (h : StoreInv db) : StoreInv (store_scraped_title db s) := by
  show StoreInv (store_scraped_title_body db s)
  rw [store_scraped_title_body]
  exact storeInv_apply_facts _ _ _ (title_facts_wf s)
    (storeInv_insert_new_scrape db _ h)

theorem storeInv_store_scraped_person (db : DB) (s : ScrapedPerson)
    (h : StoreInv db) : StoreInv (store_scraped_person db s).2 := by
  cases hbody : store_scraped_person_body db s with
  | error e =>
      have : (store_scraped_person db s).2 = db := by
        rw [store_scraped_person, sharedConnection_run]
        simp [hbody]
      rw [this]
      exact h
  | ok db' =>
      have : (store_scraped_person db s).2 = db' := by
        rw [store_scraped_person, sharedConnection_run]
        simp [hbody]
      rw [this]
      rw [store_scraped_person_body] at hbody
      refine storeInv_store_filmography _ _ _ _ db' ?_ hbody
      exact storeInv_apply_facts _ _ _ (person_info_facts_wf s)
        (storeInv_insert_new_scrape db _ h)

theorem storeInv_reachable (db : DB) (h : Reachable db) : StoreInv db := by
  induction h with
  | init =>
      refine ⟨fun t => ?_, List.nodup_nil, fun c => rfl⟩
      cases t <;> exact List.Pairwise.nil
  | title db s _ ih => exact storeInv_store_scraped_title db s ih
  | person db s _ ih => exact storeInv_store_scraped_person db s ih

theorem store_filmography_error_of_missing_tags (sid : Nat) (pid : String) :
    ∀ l : List (String × FilmCredit),
      (∃ tc ∈ l, tc.2.title_info.tags = none) →
      ∀ db : DB, ∃ e, store_filmography db sid pid l = Except.error e := by
  intro l
  induction l with
  | nil =>
      intro hbad db
      obtain ⟨tc, htc, -⟩ := hbad
      cases htc
  | cons hd tl ih =>
      intro hbad db
      obtain ⟨tid, credit⟩ := hd
      rw [store_filmography]
      cases htags : credit.title_info.tags with
      | none =>
          exact ⟨("KeyError: tags"), rfl⟩
      | some tags =>
          refine ih ?_ _
          obtain ⟨tc, htc, hn⟩ := hbad
          rcases List.mem_cons.mp htc with h1 | h1
          · rw [h1] at hn
            rw [htags] at hn
            cases hn
          · exact ⟨tc, h1, hn⟩

/-- Claim C2: for every ingestion call whose body raises an error partway
through the transactional scope (after some statements already wrote rows),
the gate rolls back: the resulting committed state equals the state before
the call, and the error propagates to the caller. -/
theorem failed_ingestion_rolls_back (db : DB) (body : DB → Except String DB)
    (e : String) (hbody : body db = Except.error e) :
    sharedConnection_run ⟨db, false⟩ false false body
      = (some e, ⟨db, false⟩) := by
  rw [sharedConnection_run]
  simp [hbody]

/-- Witness for C2: a title ingestion forced to fail after its first fact
leaves a fresh store untouched and surfaces the error. -/
theorem failed_ingestion_rolls_back_witness :
    sharedConnection_run ⟨init_database, false⟩ false false
        (title_body_faulty faultyTitleDoc 1)
      = (some ("INSERT failed"), ⟨init_database, false⟩) :=
  failed_ingestion_rolls_back init_database (title_body_faulty faultyTitleDoc 1)
    ("INSERT failed") rfl

/-- Claim C3: a column mapping containing a NULL value never matches any
existing row under the dedup lookup's three-valued SQL equality, so every
such occurrence takes the insert branch: a brand-new change id (one not yet
in `_changes`) is minted and a new fact row is appended, instead of reusing
the existing NULL row's change. -/
theorem null_value_never_deduplicated (db : DB) (sid : Nat) (t : TableName)
    (row : Row) (hnull : Value.null ∈ row.map Prod.snd) :
    (insert_with_change db sid t row).getTable t
        = db.getTable t ++ [⟨row, nextId db.change_ids⟩] ∧
    (insert_with_change db sid t row).change_ids
        = db.change_ids ++ [nextId db.change_ids] ∧
    nextId db.change_ids ∉ db.change_ids := by
  have hfind : (db.getTable t).find? (rowMatches row) = none := by
    rw [List.find?_eq_none]
    intro r _
    rw [rowMatches_of_null_mem row r hnull]
    simp
  rw [insert_with_change_none db sid t row hfind]
  refine ⟨?_, ?_, nextId_not_mem _⟩
  · rw [getTable_setTable, if_pos rfl, getTable_bump]
  · rw [change_ids_setTable]

/-- Witness for C3: re-inserting the NULL-typed credit row into the state
already holding it appends a second row with a fresh change id. -/
theorem null_value_never_deduplicated_witness :
    (insert_with_change (store_scraped_person init_database (personNullCredit 1)).2
        2 TableName.credits creditsNullRow).getTable TableName.credits
      = (store_scraped_person init_database (personNullCredit 1)).2.getTable
          TableName.credits
        ++ [⟨creditsNullRow,
             nextId (store_scraped_person init_database
               (personNullCredit 1)).2.change_ids⟩] :=
  (null_value_never_deduplicated _ 2 TableName.credits creditsNullRow
    (by decide)).1

/-- Counterexample to Claim C6 as stated: with a storage failure injected at
the COMMIT itself, the gate rolls the transaction back but reports success to
the caller — the commit error is silently dropped rather than surfaced. -/
theorem commit_error_swallowed_counterexample :
    sharedConnection_run ⟨init_database, false⟩ false true
        (fun d => Except.ok (store_scraped_title_body d faultyTitleDoc))
      = (none, ⟨init_database, false⟩) := rfl

/-- Claim C6 amended: every storage error raised by a statement inside the
transactional scope before the commit is surfaced to the immediate caller
after the rollback, with nothing retried; but a failure of the COMMIT
statement itself, while still rolling back, is swallowed and the call reports
success. -/
theorem storage_error_propagation_amended (g : GateState)
    (b1 b2 : DB → Except String DB) (e : String) (db' : DB)
    (h1 : b1 g.db = Except.error e) (h2 : b2 g.db = Except.ok db') :
    sharedConnection_run g false false b1 = (some e, ⟨g.db, false⟩) ∧
    sharedConnection_run g false true b2 = (none, ⟨g.db, false⟩) := by
  constructor <;> rw [sharedConnection_run] <;> simp [h1, h2]

/-- Witness for the amended C6 at a concrete store and concrete bodies. -/
theorem storage_error_propagation_amended_witness :
    sharedConnection_run ⟨init_database, false⟩ false false
        (title_body_faulty faultyTitleDoc 2)
      = (some ("INSERT failed"), ⟨init_database, false⟩) ∧
    sharedConnection_run ⟨init_database, false⟩ false true
        (fun d => Except.ok (store_scraped_title_body d faultyTitleDoc))
      = (none, ⟨init_database, false⟩) :=
  storage_error_propagation_amended ⟨init_database, false⟩
    (title_body_faulty faultyTitleDoc 2)
    (fun d => Except.ok (store_scraped_title_body d faultyTitleDoc))
    ("INSERT failed")
    (store_scraped_title_body init_database faultyTitleDoc) rfl rfl

/-- Claim C7: the gate's scoped acquisition releases the mutual-exclusion
lock on every exit path — normal commit, an error raised inside the scope, a
failing COMMIT, and a failure of the BEGIN inside the acquisition itself. -/
theorem gate_lock_always_released (g : GateState) (bf cf : Bool)
    (body : DB → Except String DB) :
    (sharedConnection_run g bf cf body).2.locked = false := by
  rw [sharedConnection_run]
  cases bf with
  | true => rfl
  | false =>
      cases body g.db with
      | error e => rfl
      | ok db' =>
          cases cf with
          | true => rfl
          | false => rfl

/-- Claim C9: a person document with a filmography credit whose embedded
title info lacks the `tags` key (permitted by the `FilmCreditTitleInfo`
type) makes `store_scraped_person` raise, and the gate's rollback leaves the
committed state exactly as before the call. -/
theorem missing_title_tags_key_aborts (db : DB) (s : ScrapedPerson)
    (hbad : ∃ tc ∈ s.filmography.getD [], tc.2.title_info.tags = none) :
    (store_scraped_person db s).1.isSome = true ∧
    (store_scraped_person db s).2 = db := by
  have hbody : ∃ e, store_scraped_person_body db s = Except.error e := by
    rw [store_scraped_person_body]
    exact store_filmography_error_of_missing_tags _ _ _ hbad _
  obtain ⟨e, he⟩ := hbody
  rw [store_scraped_person, sharedConnection_run]
  simp [he]

/-- Witness for C9 at a concrete person document missing the `tags` key. -/
theorem missing_title_tags_key_aborts_witness :
    (store_scraped_person init_database personBadCredit).1.isSome = true ∧
    (store_scraped_person init_database personBadCredit).2 = init_database :=
  missing_title_tags_key_aborts init_database personBadCredit (by decide)

/-- Claim C10: `store_scraped_title` never reads the `directors` and
`writers` fields, so removing them from any title document produces exactly
the same database state. -/
theorem directors_writers_ignored (db : DB) (s : ScrapedTitle) :
    store_scraped_title db { s with directors := none, writers := none }
      = store_scraped_title db s := rfl

/-- Counterexample to Claim C1 as stated: on a state satisfying the
uniqueness invariant whose single `credits` row carries a NULL
`credit_type` equal to the given column mapping, `insert_with_change`
inserts a second row with the very same columns, so "exactly one fact row
whose columns equal the given mapping" fails. -/
theorem insert_with_change_null_mapping_counterexample :
    List.Pairwise (fun r1 r2 : FactRow => r1.cols ≠ r2.cols) dbNullRow.credits ∧
    ((insert_with_change dbNullRow 2 TableName.credits creditsNullRow).credits.filter
        (fun r => r.cols == creditsNullRow)).length = 2 := by
  decide

/-- Claim C1 amended: for every non-empty column mapping whose values are all
non-NULL (and whose column names are distinct), on a state whose target-table
rows carry the mapping's column set and satisfy the uniqueness invariant
(at most one row equal to the mapping), one `insert_with_change` call leaves
exactly one fact row whose columns equal the mapping — the pre-existing row
or a newly inserted one — and appends exactly one new ScrapeChangeLink row
linking the current scrape id to that row's change id. -/
theorem insert_with_change_dedup_amended (db : DB) (sid : Nat) (t : TableName)
    (row : Row) (_hne : row ≠ []) (hk : keysNodup row)
    (hnn : rowNonNull row = true)
    (hshape : ∀ r ∈ db.getTable t, r.cols.map Prod.fst = row.map Prod.fst)
    (huniq : ((db.getTable t).filter (fun r => r.cols == row)).length ≤ 1) :
    (((insert_with_change db sid t row).getTable t).filter
        (fun r => r.cols == row)).length = 1 ∧
    (insert_with_change db sid t row).changes
        = db.changes ++ [(dedup_change_id db t row, sid)] ∧
    ∀ r ∈ (insert_with_change db sid t row).getTable t,
      r.cols = row → r.change_id = dedup_change_id db t row := by
  cases hfind : (db.getTable t).find? (rowMatches row) with
  | some r =>
      have hmem : r ∈ db.getTable t := List.mem_of_find?_eq_some hfind
      have hmatch : rowMatches row r = true := List.find?_some hfind
      have hcols : r.cols = row := by
        refine cols_eq_of_rowMatches r.cols row (hshape r hmem) hk ?_
        rw [rowMatches, List.all_eq_true] at hmatch
        exact hmatch
      have hdc : dedup_change_id db t row = r.change_id := by
        rw [dedup_change_id, hfind]
      have hrmem : r ∈ (db.getTable t).filter (fun r => r.cols == row) :=
        List.mem_filter.mpr ⟨hmem, by rw [beq_iff_eq]; exact hcols⟩
      have h1 : 0 < ((db.getTable t).filter (fun r => r.cols == row)).length :=
        List.length_pos.mpr (List.ne_nil_of_mem hrmem)
      have hlen : ((db.getTable t).filter (fun r => r.cols == row)).length = 1 := by
        omega
      rw [insert_with_change_match db sid t row r hfind, getTable_add_link]
      refine ⟨hlen, by rw [hdc], ?_⟩
      intro r' hr' hcols'
      have hr'mem : r' ∈ (db.getTable t).filter (fun r => r.cols == row) :=
        List.mem_filter.mpr ⟨hr', by rw [beq_iff_eq]; exact hcols'⟩
      obtain ⟨x, hx⟩ := List.length_eq_one.mp hlen
      rw [hx, List.mem_singleton] at hrmem hr'mem
      rw [hdc, hr'mem, ← hrmem]
  | none =>
      have hnomatch : ∀ x ∈ db.getTable t, ¬rowMatches row x = true :=
        fun x hx => List.find?_eq_none.mp hfind x hx
      have hnew : ∀ x ∈ db.getTable t, (x.cols == row) = false := by
        intro x hx
        rw [beq_eq_false_iff_ne]
        intro hxc
        exact hnomatch x hx (rowMatches_self row x hk hnn hxc)
      have hfilter : (db.getTable t).filter (fun r => r.cols == row) = [] := by
        rw [List.filter_eq_nil_iff]
        intro a ha
        rw [hnew a ha]
        simp
      have hdc : dedup_change_id db t row = nextId db.change_ids := by
        rw [dedup_change_id, hfind]
      rw [insert_with_change_none db sid t row hfind]
      refine ⟨?_, ?_, ?_⟩
      · rw [getTable_setTable, if_pos rfl, getTable_bump, List.filter_append,
          hfilter]
        simp
      · rw [changes_setTable, hdc]
      · intro r' hr' hcols'
        rw [getTable_setTable, if_pos rfl, getTable_bump, List.mem_append] at hr'
        cases hr' with
        | inl h =>
            have hfalse := hnew r' h
            rw [hcols', beq_self_eq_true] at hfalse
            exact Bool.noConfusion hfalse
        | inr h =>
            rw [List.mem_singleton] at h
            rw [h, hdc]

/-- Witness for the amended C1: re-inserting the already-present title row
keeps exactly one copy and adds one link carrying its change id. -/
theorem insert_with_change_dedup_amended_witness :
    (((insert_with_change dedupWitnessDB 2 TableName.title_info
          titleRowFoo).getTable TableName.title_info).filter
        (fun r => r.cols == titleRowFoo)).length = 1 ∧
    (insert_with_change dedupWitnessDB 2 TableName.title_info
        titleRowFoo).changes
      = dedupWitnessDB.changes
        ++ [(dedup_change_id dedupWitnessDB TableName.title_info titleRowFoo, 2)] :=
  ⟨(insert_with_change_dedup_amended dedupWitnessDB 2 TableName.title_info
      titleRowFoo (by decide) (keysNodup_titleInfoRow ("tt1") ("title")
        (Value.str ("Foo"))) (by decide) (by decide) (by decide)).1,
   (insert_with_change_dedup_amended dedupWitnessDB 2 TableName.title_info
      titleRowFoo (by decide) (keysNodup_titleInfoRow ("tt1") ("title")
        (Value.str ("Foo"))) (by decide) (by decide) (by decide)).2.1⟩

theorem mem_allFactIds (db : DB) (t : TableName) (r : FactRow)
    (hr : r ∈ db.getTable t) : r.change_id ∈ allFactIds db := by
  rw [allFactIds]
  refine List.mem_map.mpr ⟨r, ?_, rfl⟩
  cases t <;> simp only [DB.getTable] at hr <;> simp [hr]

/-- Counterexample to Claim C4 as stated: two person ingestions with an
untyped (NULL `credit_type`) credit — a reachable sequence of ingestion
calls — leave two `credits` rows sharing the same subject+value tuple,
because the SQLite UNIQUE constraint treats NULLs as distinct and the NULL
lookup never deduplicates. -/
theorem fact_tables_unique_counterexample :
    (store_scraped_person (store_scraped_person init_database
        (personNullCredit 1)).2 (personNullCredit 2)).2.credits.map
      FactRow.cols = [creditsNullRow, creditsNullRow] := by
  decide

/-- Claim C4 amended: in every state reachable by ingestion calls, no two
rows of any fact table whose columns are all non-NULL share the same
subject+value tuple; rows carrying a NULL column may repeat (the documented
NULL non-dedup defect), exactly as SQLite's UNIQUE constraint permits. -/
theorem fact_tables_unique_amended (db : DB) (h : Reachable db) :
    factUniq db :=
  (storeInv_reachable db h).1

/-- Witness for the amended C4 at the state reached by one title ingestion. -/
theorem fact_tables_unique_amended_witness :
    tableUniq (dedupWitnessDB.getTable TableName.title_info) :=
  fact_tables_unique_amended dedupWitnessDB
    (Reachable.title init_database (titleOnlyDoc ("tt1") ("Foo") 1)
      Reachable.init) TableName.title_info

/-- Claim C5: in every reachable state, every fact row's change id occurs
exactly once in the `_changes` identity table, and every `_changes` id is
carried by exactly one fact row across the five fact tables combined. -/
theorem changes_fact_bijection (db : DB) (h : Reachable db) :
    (∀ t : TableName, ∀ r ∈ db.getTable t,
        db.change_ids.count r.change_id = 1) ∧
    (∀ c ∈ db.change_ids, (allFactIds db).count c = 1) := by
  obtain ⟨-, hnd, hcnt⟩ := storeInv_reachable db h
  constructor
  · intro t r hr
    have hmem : r.change_id ∈ allFactIds db := mem_allFactIds db t r hr
    have h1 : 0 < (allFactIds db).count r.change_id :=
      List.count_pos_iff.mpr hmem
    have h2 := hcnt r.change_id
    have h3 := List.nodup_iff_count_le_one.mp hnd r.change_id
    omega
  · intro c hc
    rw [hcnt c]
    exact List.count_eq_one_of_mem hnd hc

/-- Witness for C5 at the state reached by one title ingestion. -/
theorem changes_fact_bijection_witness :
    (allFactIds dedupWitnessDB).count 1 = 1 :=
  (changes_fact_bijection dedupWitnessDB
    (Reachable.title init_database (titleOnlyDoc ("tt1") ("Foo") 1)
      Reachable.init)).2 1 (by decide)

/-- Claim C8: ingesting the same title id with the same `title` value twice
(different timestamps) into a fresh store yields exactly two Scrape rows,
exactly one `title_info` row for `(title_id, "title", value)`, and exactly
two ScrapeChangeLink rows sharing the same change id. -/
theorem store_scraped_title_dedup_identity (tid v : String) (ts1 ts2 : Int)
    (_hts : ts1 ≠ ts2) :
    (store_scraped_title (store_scraped_title init_database
        (titleOnlyDoc tid v ts1)) (titleOnlyDoc tid v ts2)).scrapes
      = [(1, ts1), (2, ts2)] ∧
    (store_scraped_title (store_scraped_title init_database
        (titleOnlyDoc tid v ts1)) (titleOnlyDoc tid v ts2)).title_info
      = [⟨titleInfoRow tid ("title") (Value.str v), 1⟩] ∧
    (store_scraped_title (store_scraped_title init_database
        (titleOnlyDoc tid v ts1)) (titleOnlyDoc tid v ts2)).changes
      = [(1, 1), (1, 2)] := by
  have h1 : store_scraped_title init_database (titleOnlyDoc tid v ts1)
      = ⟨[(1, ts1)], [1], [(1, 1)],
         [⟨titleInfoRow tid ("title") (Value.str v), 1⟩], [], [], [], []⟩ := rfl
  have hmatch : rowMatches (titleInfoRow tid ("title") (Value.str v))
      ⟨titleInfoRow tid ("title") (Value.str v), 1⟩ = true :=
    rowMatches_self _ _ (keysNodup_titleInfoRow _ _ _) rfl rfl
  have hfind : ([⟨titleInfoRow tid ("title") (Value.str v), 1⟩] :
      List FactRow).find?
        (rowMatches (titleInfoRow tid ("title") (Value.str v)))
      = some ⟨titleInfoRow tid ("title") (Value.str v), 1⟩ :=
    List.find?_cons_of_pos _ hmatch
  have h2 : store_scraped_title
      (⟨[(1, ts1)], [1], [(1, 1)],
        [⟨titleInfoRow tid ("title") (Value.str v), 1⟩], [], [], [], []⟩ : DB)
      (titleOnlyDoc tid v ts2)
      = ⟨[(1, ts1), (2, ts2)], [1], [(1, 1), (1, 2)],
         [⟨titleInfoRow tid ("title") (Value.str v), 1⟩], [], [], [], []⟩ := by
    show insert_with_change
        (⟨[(1, ts1), (2, ts2)], [1], [(1, 1)],
          [⟨titleInfoRow tid ("title") (Value.str v), 1⟩], [], [], [], []⟩ : DB)
        2 TableName.title_info (titleInfoRow tid ("title") (Value.str v)) = _
    rw [insert_with_change_match _ _ _ _ _ hfind]
    rfl
  rw [h1, h2]
  exact ⟨rfl, rfl, rfl⟩

/-- Witness for C8 at a concrete title document and timestamps 1 and 2. -/
theorem store_scraped_title_dedup_identity_witness :
    (store_scraped_title (store_scraped_title init_database
        (titleOnlyDoc ("tt1") ("Foo") 1)) (titleOnlyDoc ("tt1") ("Foo") 2)).scrapes
      = [(1, 1), (2, 2)] ∧
    (store_scraped_title (store_scraped_title init_database
        (titleOnlyDoc ("tt1") ("Foo") 1)) (titleOnlyDoc ("tt1") ("Foo") 2)).title_info
      = [⟨titleInfoRow ("tt1") ("title") (Value.str ("Foo")), 1⟩] ∧
    (store_scraped_title (store_scraped_title init_database
        (titleOnlyDoc ("tt1") ("Foo") 1)) (titleOnlyDoc ("tt1") ("Foo") 2)).changes
      = [(1, 1), (1, 2)] :=
  store_scraped_title_dedup_identity ("tt1") ("Foo") 1 2 (by decide)
